import Mathlib

/-
  Shallow embedding of the real-time chat / presence subsystem of the
  tf-backend repository:
    - src/app/modules/chat/chatSocketHandler.js  (current revision: the one
      with delivery tracking and the offline-notification fallback)
    - src/socket/socketServer.js                 (connection, presence,
      status queries)
    - src/app/helpers/notificationHelper.js      (createNotification)
    - src/app/helpers/emailHelper.js             (sendChatMessageEmail)
  Database tables (chat_conversation, chat_message, notification, user) are
  modelled as lists of rows; Prisma transactions are modelled atomically
  (all updates applied together, or none on failure); socket.io rooms are
  modelled as room-name lists on each session.
-/

namespace TFChat

/-- JS `s.substring(0, n)`: the first `n` characters of `s`. -/
def jsSubstring (s : String) (n : Nat) : String := (s.toList.take n).asString

/-- Whitespace characters stripped by the JS `trim()` used on message
bodies. -/
def isJsWhitespace (c : Char) : Bool :=
  c == ' ' || c == '\t' || c == '\n' || c == '\r'

/-- JS `s.trim()`: strip leading and trailing whitespace. -/
def jsTrim (s : String) : String :=
  ((s.toList.dropWhile isJsWhitespace).reverse.dropWhile isJsWhitespace).reverse.asString

/-- Row of the chat_message table. -/
structure ChatMessage where
  cm_id : Nat
  cc_id : Nat
  sender_user_id : Nat
  cm_message : String
  cm_message_type : String
  cm_file_url : Option String
  cm_is_delivered : Bool
  cm_delivered_at : Option Nat
  cm_is_read : Bool
  cm_read_at : Option Nat
deriving Repr, DecidableEq

/-- Row of the chat_conversation table. -/
structure ChatConversation where
  cc_id : Nat
  recruiter_user_id : Nat
  talent_user_id : Nat
  status : Bool
  cc_last_message : Option String
  cc_last_message_at : Option Nat
  cc_unread_count_recruiter : Nat
  cc_unread_count_talent : Nat
deriving Repr, DecidableEq

/-- Row of the notification table (as written by createNotification). -/
structure NotificationRow where
  user_id : Nat
  notification_name : String
  notification_heading : String
  notification_text : String
  notification_image : Option String
  is_read : Bool
  status : Bool
deriving Repr, DecidableEq

/-- Row of the user table (the fields selected in the send path). -/
structure UserRow where
  user_id : Nat
  user_email : String
  user_full_name : String
deriving Repr, DecidableEq

/-- A live socket.io session: socket id, its authenticated user
(socket.user), and the rooms the socket has joined. -/
structure Session where
  sid : Nat
  user_id : Nat
  user_full_name : String
  rooms : List String
deriving Repr, DecidableEq

/-- One outbound email attempt made through sendChatMessageEmail. -/
structure EmailAttempt where
  recipient_email : String
  sender_name : String
  preview : String
  conversationId : Nat
deriving Repr, DecidableEq

/-- The whole observable state of the subsystem: database tables, the
connected sessions with their rooms, and the log of email attempts. -/
structure ChatState where
  conversations : List ChatConversation
  messages : List ChatMessage
  notifications : List NotificationRow
  users : List UserRow
  sessions : List Session
  emails : List EmailAttempt
  nextMessageId : Nat
  now : Nat
deriving Repr, DecidableEq

/-- Events emitted through socket.io, tagged with their destination
(a socket id for direct emits, a room name for room emits, an excepted
socket id for broadcasts). -/
inductive OutEvent where
  | errorTo (sid : Nat) (message : String)
  | joinedConversation (sid : Nat) (conversationId : Nat)
  | newMessage (room : String) (message : ChatMessage) (senderId : Nat) (senderName : String)
  | messageNotification (room : String) (conversationId : Nat) (preview : String) (senderName : String)
  | messagesDelivered (room : String) (conversationId : Nat)
  | messagesRead (room : String) (conversationId : Nat)
  | messagesMarkedRead (sid : Nat) (conversationId : Nat)
  | messagesMarkedDelivered (sid : Nat) (conversationId : Nat)
  | userOnline (exceptSid : Nat) (userId : Nat) (userName : String)
  | userOffline (exceptSid : Nat) (userId : Nat) (userName : String)
  | userStatusResponse (sid : Nat) (userId : Nat) (isOnline : Bool)
  | multipleUsersStatusResponse (sid : Nat) (statuses : List (Nat × Bool))
deriving Repr, DecidableEq

/-- Room name `conversation:<id>`. -/
def conversationRoom (cid : Nat) : String := "conversation:" ++ toString cid

/-- Personal room name `user:<id>`. -/
def userRoom (uid : Nat) : String := "user:" ++ toString uid

/-- io.in(room).fetchSockets(): the sessions currently joined to a room. -/
def roomSockets (st : ChatState) (room : String) : List Session :=
  st.sessions.filter (fun s => s.rooms.contains room)

/-- isUserOnline from chatSocketHandler.js: whether the user has at least
one socket in their personal room. -/
def isUserOnline (st : ChatState) (userId : Nat) : Bool :=
  (roomSockets st (userRoom userId)).length > 0

/-- The other participant of a conversation, as computed in the handlers:
the talent if the caller is the recruiter, else the recruiter. -/
def otherParticipant (c : ChatConversation) (uid : Nat) : Nat :=
  if c.recruiter_user_id == uid then c.talent_user_id else c.recruiter_user_id

/-- Whether some session of the given user is currently subscribed to the
conversation room (the immediate-delivery check of send_message). -/
def channelPresent (st : ChatState) (cid uid : Nat) : Bool :=
  (roomSockets st (conversationRoom cid)).any (fun s => s.user_id == uid)

/-- The conversationId field of an incoming payload, after the handlers
validation: falsy/missing, parseInt giving NaN, or a valid integer. -/
inductive ConvIdPayload where
  | missing
  | malformed
  | valid (cid : Nat)
deriving Repr, DecidableEq

/-- Payload of join_conversation / mark_as_delivered / mark_as_read. -/
structure ConvData where
  conversationId : ConvIdPayload
deriving Repr, DecidableEq

/-- Payload of send_message; message is none when absent or not a string. -/
structure SendData where
  conversationId : ConvIdPayload
  message : Option String
  messageType : String
  fileUrl : Option String
deriving Repr, DecidableEq

/-- prisma.chat_conversation.findFirst with the participant OR-filter and
status: true (used by join_conversation and send_message). -/
def findActiveConversation (st : ChatState) (cid uid : Nat) : Option ChatConversation :=
  st.conversations.find? (fun c =>
    c.cc_id == cid && (c.recruiter_user_id == uid || c.talent_user_id == uid) && c.status)

/-- prisma.chat_conversation.findFirst with the participant OR-filter but
no status filter (used by mark_as_delivered and mark_as_read). -/
def findAnyConversation (st : ChatState) (cid uid : Nat) : Option ChatConversation :=
  st.conversations.find? (fun c =>
    c.cc_id == cid && (c.recruiter_user_id == uid || c.talent_user_id == uid))

/-- Lookup of the conversation row by primary key (the row a
where: \x7b cc_id \x7d update targets). -/
def getConv (st : ChatState) (cid : Nat) : Option ChatConversation :=
  st.conversations.find? (fun c => c.cc_id == cid)

/-- createNotification from notificationHelper.js: inserts one
notification row with is_read: false and status: true. -/
def createNotification (st : ChatState) (userId : Nat)
    (nName nHeading nText : String) (nImage : Option String) : ChatState :=
  { st with notifications := st.notifications ++
      [{ user_id := userId, notification_name := nName,
         notification_heading := nHeading, notification_text := nText,
         notification_image := nImage, is_read := false, status := true }] }

/-- sendChatMessageEmail from emailHelper.js, modelled as recording one
outbound email attempt for the recipient. -/
def sendChatMessageEmail (st : ChatState) (recipientUser : UserRow)
    (senderName message : String) (conversationId : Nat) : ChatState :=
  { st with emails := st.emails ++
      [{ recipient_email := recipientUser.user_email, sender_name := senderName,
         preview := message, conversationId := conversationId }] }

/-- The conversation-row update performed inside the send transaction:
last-message preview (substring 0 255), last-message timestamp, and the
increment of the OTHER side unread counter by one. -/
def convAfterSend (c : ChatConversation) (isRecruiter : Bool)
    (trimmedMessage : String) (now : Nat) : ChatConversation :=
  { c with
      cc_last_message := some (jsSubstring trimmedMessage 255),
      cc_last_message_at := some now,
      cc_unread_count_talent :=
        if isRecruiter then c.cc_unread_count_talent + 1 else c.cc_unread_count_talent,
      cc_unread_count_recruiter :=
        if isRecruiter then c.cc_unread_count_recruiter else c.cc_unread_count_recruiter + 1 }

/-- The prisma.$transaction of send_message: create the message row
(status Sent: both flags false) and update the conversation row, as one
atomic unit. -/
def sendTransaction (st : ChatState) (cid : Nat) (sender : Session)
    (trimmedMessage messageType : String) (fileUrl : Option String)
    (isRecruiter : Bool) : ChatState × ChatMessage :=
  let msg : ChatMessage :=
    { cm_id := st.nextMessageId, cc_id := cid, sender_user_id := sender.user_id,
      cm_message := trimmedMessage, cm_message_type := messageType,
      cm_file_url := fileUrl, cm_is_delivered := false, cm_delivered_at := none,
      cm_is_read := false, cm_read_at := none }
  ({ st with
      messages := st.messages ++ [msg],
      conversations := st.conversations.map (fun c =>
        if c.cc_id == cid then convAfterSend c isRecruiter trimmedMessage st.now else c),
      nextMessageId := st.nextMessageId + 1 }, msg)

/-- prisma.chat_message.update where cm_id: set delivered and stamp the
delivery time (the immediate-delivery step of send_message). -/
def markDeliveredById (st : ChatState) (mid : Nat) : ChatState :=
  { st with messages := st.messages.map (fun (m : ChatMessage) =>
      if m.cm_id == mid
      then { m with cm_is_delivered := true, cm_delivered_at := some st.now }
      else m) }

/-- The offline-fallback block of send_message: one try block that first
creates the notification row and then, if the recipient row exists in the
user table, makes one email attempt; notifFails models
createNotification throwing (no row inserted, email skipped), emailFails
models sendChatMessageEmail throwing after the attempt; either failure is
caught and only logged. -/
def offlineFallback (st : ChatState) (recipientUserId : Nat)
    (senderName trimmedMessage : String) (cid : Nat)
    (notifFails emailFails : Bool) : ChatState :=
  if notifFails then st
  else
    let st1 := createNotification st recipientUserId "new_chat_message"
      ("New message from " ++ senderName) (jsSubstring trimmedMessage 100) none
    match st1.users.find? (fun u => u.user_id == recipientUserId) with
    | none => st1
    | some recipientUser =>
        sendChatMessageEmail st1 recipientUser senderName
          (jsSubstring trimmedMessage 200) cid

/-- The body of send_message after validation, access check and the
txFails branch: the atomic transaction, the immediate-delivery check
against the conversation room, the two emits, and the conditional
offline fallback. -/
def sendCore (st : ChatState) (sender : Session) (cid : Nat)
    (trimmedMessage messageType : String) (fileUrl : Option String)
    (conversation : ChatConversation) (notifFails emailFails : Bool) :
    ChatState × List OutEvent :=
  let isRecruiter := conversation.recruiter_user_id == sender.user_id
  let res := sendTransaction st cid sender trimmedMessage messageType fileUrl isRecruiter
  let st1 := res.1
  let newMessage := res.2
  let recipientUserId := otherParticipant conversation sender.user_id
  let isRecipientOnline := channelPresent st1 cid recipientUserId
  let st2 := if isRecipientOnline then markDeliveredById st1 newMessage.cm_id else st1
  let messageWithStatus :=
    if isRecipientOnline
    then { newMessage with cm_is_delivered := true, cm_delivered_at := some st.now }
    else newMessage
  let events :=
    [OutEvent.newMessage (conversationRoom cid) messageWithStatus
        sender.user_id sender.user_full_name,
     OutEvent.messageNotification (userRoom recipientUserId) cid
        (jsSubstring trimmedMessage 50) sender.user_full_name]
  let recipientOnline := isUserOnline st2 recipientUserId
  if recipientOnline then (st2, events)
  else
    (offlineFallback st2 recipientUserId sender.user_full_name
      trimmedMessage cid notifFails emailFails, events)

/-- The send_message handler (current revision of chatSocketHandler.js).
txFails models a Prisma failure inside the $transaction: the transaction
rolls back atomically and the catch block emits the error to the sender. -/
def send_message (st : ChatState) (sender : Session) (data : SendData)
    (txFails notifFails emailFails : Bool) : ChatState × List OutEvent :=
  match data.conversationId, data.message with
  | ConvIdPayload.missing, _ => (st, [OutEvent.errorTo sender.sid "Conversation ID is required"])
  | _, none => (st, [OutEvent.errorTo sender.sid "Message cannot be empty"])
  | ConvIdPayload.malformed, some raw =>
      if jsTrim raw == "" then (st, [OutEvent.errorTo sender.sid "Message cannot be empty"])
      else (st, [OutEvent.errorTo sender.sid "Invalid conversation ID format"])
  | ConvIdPayload.valid cid, some raw =>
      if jsTrim raw == "" then (st, [OutEvent.errorTo sender.sid "Message cannot be empty"])
      else
        match findActiveConversation st cid sender.user_id with
        | none => (st, [OutEvent.errorTo sender.sid "Conversation not found or access denied"])
        | some conversation =>
            let trimmedMessage := jsTrim raw
            if txFails then (st, [OutEvent.errorTo sender.sid "Failed to send message"])
            else
              sendCore st sender cid trimmedMessage data.messageType data.fileUrl
                conversation notifFails emailFails

/-- The join_conversation handler: validate, check access (active
conversation, caller participant), join the room, bulk-mark undelivered
messages from the other user as delivered, and notify the other
participant with messages_delivered. -/
def join_conversation (st : ChatState) (joiner : Session) (data : ConvData) :
    ChatState × List OutEvent :=
  match data.conversationId with
  | ConvIdPayload.missing => (st, [OutEvent.errorTo joiner.sid "Conversation ID is required"])
  | ConvIdPayload.malformed => (st, [OutEvent.errorTo joiner.sid "Invalid conversation ID format"])
  | ConvIdPayload.valid cid =>
      match findActiveConversation st cid joiner.user_id with
      | none => (st, [OutEvent.errorTo joiner.sid "Conversation not found or access denied"])
      | some conversation =>
          let room := conversationRoom cid
          let st1 : ChatState := { st with sessions := st.sessions.map (fun (s : Session) =>
              if s.sid == joiner.sid
              then { s with rooms := if s.rooms.contains room then s.rooms else s.rooms ++ [room] }
              else s) }
          let st2 : ChatState := { st1 with messages := st1.messages.map (fun (m : ChatMessage) =>
              if m.cc_id == cid && !(m.sender_user_id == joiner.user_id) && !m.cm_is_delivered
              then { m with cm_is_delivered := true, cm_delivered_at := some st.now }
              else m) }
          let senderUserId := otherParticipant conversation joiner.user_id
          (st2, [OutEvent.joinedConversation joiner.sid cid,
                 OutEvent.messagesDelivered (userRoom senderUserId) cid])

/-- The mark_as_delivered handler: on a found conversation (no status
filter) bulk-mark undelivered messages from the other user as delivered;
on a missing conversation it only logs and returns, emitting nothing. -/
def mark_as_delivered (st : ChatState) (caller : Session) (data : ConvData) :
    ChatState × List OutEvent :=
  match data.conversationId with
  | ConvIdPayload.missing => (st, [OutEvent.errorTo caller.sid "Conversation ID is required"])
  | ConvIdPayload.malformed => (st, [OutEvent.errorTo caller.sid "Invalid conversation ID format"])
  | ConvIdPayload.valid cid =>
      match findAnyConversation st cid caller.user_id with
      | none => (st, [])
      | some conversation =>
          let st1 : ChatState := { st with messages := st.messages.map (fun (m : ChatMessage) =>
              if m.cc_id == cid && !(m.sender_user_id == caller.user_id) && !m.cm_is_delivered
              then { m with cm_is_delivered := true, cm_delivered_at := some st.now }
              else m) }
          let senderUserId := otherParticipant conversation caller.user_id
          (st1, [OutEvent.messagesMarkedDelivered caller.sid cid,
                 OutEvent.messagesDelivered (userRoom senderUserId) cid])

/-- The mark_as_read handler (current revision): in one transaction,
bulk-transition all unread messages from the other user to read AND
delivered with timestamps, and reset the callers own unread counter to
zero; then acknowledge the caller and send one messages_read event to the
other participants personal room. On a missing conversation it only logs
and returns, emitting nothing. -/
def mark_as_read (st : ChatState) (caller : Session) (data : ConvData) :
    ChatState × List OutEvent :=
  match data.conversationId with
  | ConvIdPayload.missing => (st, [OutEvent.errorTo caller.sid "Conversation ID is required"])
  | ConvIdPayload.malformed => (st, [OutEvent.errorTo caller.sid "Invalid conversation ID format"])
  | ConvIdPayload.valid cid =>
      match findAnyConversation st cid caller.user_id with
      | none => (st, [])
      | some conversation =>
          let isRecruiter := conversation.recruiter_user_id == caller.user_id
          let st1 : ChatState := { st with
            messages := st.messages.map (fun (m : ChatMessage) =>
              if m.cc_id == cid && !(m.sender_user_id == caller.user_id) && !m.cm_is_read
              then { m with cm_is_delivered := true, cm_delivered_at := some st.now,
                            cm_is_read := true, cm_read_at := some st.now }
              else m),
            conversations := st.conversations.map (fun (c : ChatConversation) =>
              if c.cc_id == cid
              then (if isRecruiter
                    then { c with cc_unread_count_recruiter := 0 }
                    else { c with cc_unread_count_talent := 0 })
              else c) }
          let recipientUserId := otherParticipant conversation caller.user_id
          (st1, [OutEvent.messagesMarkedRead caller.sid cid,
                 OutEvent.messagesRead (userRoom recipientUserId) cid])

/-- The leave_conversation handler: leave the room, no validation. -/
def leave_conversation (st : ChatState) (caller : Session) (data : ConvData) :
    ChatState × List OutEvent :=
  match data.conversationId with
  | ConvIdPayload.valid cid =>
      ({ st with sessions := st.sessions.map (fun (s : Session) =>
          if s.sid == caller.sid
          then { s with rooms := s.rooms.filter (fun r => !(r == conversationRoom cid)) }
          else s) }, [])
  | _ => (st, [])

/-- The connection handler of socketServer.js: the new session joins its
personal room and user_online is broadcast to all other sockets. -/
def connectSession (st : ChatState) (sid uid : Nat) (name : String) :
    ChatState × List OutEvent :=
  let s : Session := { sid := sid, user_id := uid, user_full_name := name, rooms := [userRoom uid] }
  ({ st with sessions := st.sessions ++ [s] }, [OutEvent.userOnline sid uid name])

/-- The disconnect handler of socketServer.js: user_offline is broadcast
to all other sockets unconditionally (no check of remaining sessions),
then socket.io removes the session. -/
def disconnectSession (st : ChatState) (s : Session) : ChatState × List OutEvent :=
  ({ st with sessions := st.sessions.filter (fun t => !(t.sid == s.sid)) },
   [OutEvent.userOffline s.sid s.user_id s.user_full_name])

/-- The check_user_status handler: a falsy userId (absent or zero) is
silently dropped; otherwise the status is computed from the personal room
and sent to the requester only. -/
def check_user_status (st : ChatState) (requester : Session)
    (userId : Option Nat) : List OutEvent :=
  match userId with
  | none => []
  | some uid =>
      if uid == 0 then []
      else [OutEvent.userStatusResponse requester.sid uid (isUserOnline st uid)]

/-- The check_multiple_users_status handler: a non-array payload is
silently dropped; otherwise one status entry per input element, in input
order, sent to the requester only. -/
def check_multiple_users_status (st : ChatState) (requester : Session)
    (userIds : Option (List Nat)) : List OutEvent :=
  match userIds with
  | none => []
  | some ids =>
      [OutEvent.multipleUsersStatusResponse requester.sid
        (ids.map (fun uid => (uid, isUserOnline st uid)))]

/-- A conversation row as provisioned by the intent-acceptance code
(recruiterController.js / the intent-accept controller): only the two
participant ids are supplied, the remaining columns take their defaults
(active, no last message, both unread counters zero). -/
def freshConversation (cid rid tid : Nat) : ChatConversation :=
  { cc_id := cid, recruiter_user_id := rid, talent_user_id := tid, status := true,
    cc_last_message := none, cc_last_message_at := none,
    cc_unread_count_recruiter := 0, cc_unread_count_talent := 0 }

/-- One step of the subsystem: a handler invocation by a connected
session, a connection, a disconnection, an externally provisioned
conversation, or the clock advancing. -/
inductive Step : ChatState → ChatState → Prop where
  | provision (st : ChatState) (cid rid tid : Nat) :
      Step st { st with conversations := st.conversations ++ [freshConversation cid rid tid] }
  | connect (st : ChatState) (sid uid : Nat) (name : String) :
      Step st (connectSession st sid uid name).1
  | disconnect (st : ChatState) (s : Session) (hs : s ∈ st.sessions) :
      Step st (disconnectSession st s).1
  | join (st : ChatState) (s : Session) (d : ConvData) (hs : s ∈ st.sessions) :
      Step st (join_conversation st s d).1
  | send (st : ChatState) (s : Session) (d : SendData)
      (txFails notifFails emailFails : Bool) (hs : s ∈ st.sessions) :
      Step st (send_message st s d txFails notifFails emailFails).1
  | markDelivered (st : ChatState) (s : Session) (d : ConvData) (hs : s ∈ st.sessions) :
      Step st (mark_as_delivered st s d).1
  | markRead (st : ChatState) (s : Session) (d : ConvData) (hs : s ∈ st.sessions) :
      Step st (mark_as_read st s d).1
  | leave (st : ChatState) (s : Session) (d : ConvData) (hs : s ∈ st.sessions) :
      Step st (leave_conversation st s d).1
  | tick (st : ChatState) :
      Step st { st with now := st.now + 1 }

/-- Fresh process state: no conversations, messages, notifications,
sessions or emails; the user table is given (it is external, read-only). -/
def initialState (users : List UserRow) : ChatState :=
  { conversations := [], messages := [], notifications := [], users := users,
    sessions := [], emails := [], nextMessageId := 1, now := 0 }

/-- A state the system can actually be in: reachable from some fresh
state by handler steps. -/
def Reachable (st : ChatState) : Prop :=
  ∃ users, Relation.ReflTransGen Step (initialState users) st

/-- Per-message invariant: a read message is delivered and carries a
delivery timestamp. -/
def MsgOk (m : ChatMessage) : Prop :=
  m.cm_is_read = true → m.cm_is_delivered = true ∧ m.cm_delivered_at.isSome = true

/-- State-level invariant over every message row. -/
def ReadImpliesDelivered (st : ChatState) : Prop := ∀ m ∈ st.messages, MsgOk m

/-- User table fixture for the concrete scenarios. -/
def wUsers : List UserRow :=
  [{ user_id := 1, user_email := "alice@mail", user_full_name := "Alice" },
   { user_id := 2, user_email := "bob@mail", user_full_name := "Bob" }]

/-- Fresh state over the fixture user table. -/
def wState0 : ChatState := initialState wUsers

/-- State after conversation 42 between recruiter 1 and talent 2 is
provisioned. -/
def wState1 : ChatState :=
  { wState0 with conversations := wState0.conversations ++ [freshConversation 42 1 2] }

/-- Session fixture: Alice (user 1) connected as socket 100. -/
def wAlice : Session :=
  { sid := 100, user_id := 1, user_full_name := "Alice", rooms := [userRoom 1] }

/-- State after Alice connects. -/
def wState2 : ChatState := (connectSession wState1 100 1 "Alice").1

/-- Send payload fixture: a valid message to conversation 42. -/
def wSend : SendData :=
  { conversationId := ConvIdPayload.valid 42, message := some "  Hello Bob!  ",
    messageType := "Text", fileUrl := none }

/-- State after Alice sends the message (no failures; Bob offline). -/
def wState3 : ChatState := (send_message wState2 wAlice wSend false false false).1

/-- Session fixture: Bob (user 2) connected as socket 200. -/
def wBob : Session :=
  { sid := 200, user_id := 2, user_full_name := "Bob", rooms := [userRoom 2] }

/-- State after Bob connects. -/
def wState4 : ChatState := (connectSession wState3 200 2 "Bob").1

/-- State after Bob marks conversation 42 as read. -/
def wState5 : ChatState := (mark_as_read wState4 wBob ⟨ConvIdPayload.valid 42⟩).1

/-- Session fixture: user 7 on two simultaneous sockets. -/
def wR1 : Session := { sid := 1, user_id := 7, user_full_name := "R", rooms := [userRoom 7] }

/-- Second session of user 7. -/
def wR2 : Session := { sid := 2, user_id := 7, user_full_name := "R", rooms := [userRoom 7] }

/-- State in which user 7 is connected twice. -/
def wStateTwo : ChatState :=
  { conversations := [], messages := [], notifications := [], users := [],
    sessions := [wR1, wR2], emails := [], nextMessageId := 1, now := 0 }

/-- State in which both Alice and Bob are connected but neither has
joined the conversation room of conversation 42. -/
def wStateB : ChatState := (connectSession wState2 200 2 "Bob").1

/-- The conversation row of conversation 42 after the send in wState3
(updated preview, timestamp and talent-side unread counter). -/
def wConv42 : ChatConversation :=
  { cc_id := 42, recruiter_user_id := 1, talent_user_id := 2, status := true,
    cc_last_message := some "Hello Bob!", cc_last_message_at := some 0,
    cc_unread_count_recruiter := 0, cc_unread_count_talent := 1 }

theorem readImpliesDelivered_of_messages_eq {st st' : ChatState}
    (h : st'.messages = st.messages) (hst : ReadImpliesDelivered st) :
    ReadImpliesDelivered st' := by
  intro m hm
  exact hst m (h ▸ hm)

theorem msgOk_condDeliver (b : Bool) (t : Nat) :
    ∀ m, MsgOk m →
      MsgOk (if b then { m with cm_is_delivered := true, cm_delivered_at := some t } else m) := by
  intro m h
  split
  · exact fun _ => ⟨rfl, rfl⟩
  · exact h

theorem msgOk_condRead (b : Bool) (t : Nat) :
    ∀ m, MsgOk m →
      MsgOk (if b then { m with cm_is_delivered := true, cm_delivered_at := some t,
                                cm_is_read := true, cm_read_at := some t } else m) := by
  intro m h
  split
  · exact fun _ => ⟨rfl, rfl⟩
  · exact h

theorem sendTransaction_invariant (st : ChatState) (cid : Nat) (s : Session)
    (tm mt : String) (fu : Option String) (ir : Bool)
    (h : ReadImpliesDelivered st) :
    ReadImpliesDelivered (sendTransaction st cid s tm mt fu ir).1 := by
  intro m hm
  unfold sendTransaction at hm
  rcases List.mem_append.mp hm with h1 | h1
  · exact h m h1
  · rcases List.mem_singleton.mp h1 with rfl
    intro hr
    exact absurd hr Bool.false_ne_true

theorem markDeliveredById_invariant (st : ChatState) (mid : Nat)
    (h : ReadImpliesDelivered st) :
    ReadImpliesDelivered (markDeliveredById st mid) := by
  intro m hm
  unfold markDeliveredById at hm
  rcases List.mem_map.mp hm with ⟨a, ha, rfl⟩
  exact msgOk_condDeliver _ st.now a (h a ha)

theorem offlineFallback_messages (st : ChatState) (r : Nat) (n t : String)
    (c : Nat) (nf ef : Bool) :
    (offlineFallback st r n t c nf ef).messages = st.messages := by
  unfold offlineFallback
  split
  · rfl
  · dsimp only
    split <;> rfl

theorem sendCore_invariant (st : ChatState) (s : Session) (cid : Nat)
    (tm mt : String) (fu : Option String) (c : ChatConversation) (nf ef : Bool)
    (h : ReadImpliesDelivered st) :
    ReadImpliesDelivered (sendCore st s cid tm mt fu c nf ef).1 := by
  unfold sendCore
  dsimp only
  repeat' split
  all_goals dsimp only
  all_goals first
    | exact markDeliveredById_invariant _ _ (sendTransaction_invariant _ _ _ _ _ _ _ h)
    | exact sendTransaction_invariant _ _ _ _ _ _ _ h
    | exact readImpliesDelivered_of_messages_eq (offlineFallback_messages _ _ _ _ _ _ _)
        (markDeliveredById_invariant _ _ (sendTransaction_invariant _ _ _ _ _ _ _ h))
    | exact readImpliesDelivered_of_messages_eq (offlineFallback_messages _ _ _ _ _ _ _)
        (sendTransaction_invariant _ _ _ _ _ _ _ h)

theorem send_message_invariant (st : ChatState) (s : Session) (d : SendData)
    (tf nf ef : Bool) (h : ReadImpliesDelivered st) :
    ReadImpliesDelivered (send_message st s d tf nf ef).1 := by
  unfold send_message
  split
  · exact h
  · exact h
  · split <;> exact h
  · split
    · exact h
    · split
      · exact h
      · split
        · exact h
        · exact sendCore_invariant _ _ _ _ _ _ _ _ _ h

theorem join_conversation_invariant (st : ChatState) (s : Session) (d : ConvData)
    (h : ReadImpliesDelivered st) :
    ReadImpliesDelivered (join_conversation st s d).1 := by
  unfold join_conversation
  split
  · exact h
  · exact h
  · split
    · exact h
    · dsimp only
      intro m hm
      rcases List.mem_map.mp hm with ⟨a, ha, rfl⟩
      exact msgOk_condDeliver _ st.now a (h a ha)

theorem mark_as_delivered_invariant (st : ChatState) (s : Session) (d : ConvData)
    (h : ReadImpliesDelivered st) :
    ReadImpliesDelivered (mark_as_delivered st s d).1 := by
  unfold mark_as_delivered
  split
  · exact h
  · exact h
  · split
    · exact h
    · dsimp only
      intro m hm
      rcases List.mem_map.mp hm with ⟨a, ha, rfl⟩
      exact msgOk_condDeliver _ st.now a (h a ha)

theorem mark_as_read_invariant (st : ChatState) (s : Session) (d : ConvData)
    (h : ReadImpliesDelivered st) :
    ReadImpliesDelivered (mark_as_read st s d).1 := by
  unfold mark_as_read
  split
  · exact h
  · exact h
  · split
    · exact h
    · dsimp only
      intro m hm
      rcases List.mem_map.mp hm with ⟨a, ha, rfl⟩
      exact msgOk_condRead _ st.now a (h a ha)

theorem leave_conversation_invariant (st : ChatState) (s : Session) (d : ConvData)
    (h : ReadImpliesDelivered st) :
    ReadImpliesDelivered (leave_conversation st s d).1 := by
  unfold leave_conversation
  split <;> exact h

theorem step_preserves_invariant {st st' : ChatState} (hstep : Step st st')
    (h : ReadImpliesDelivered st) : ReadImpliesDelivered st' := by
  cases hstep with
  | provision cid rid tid => exact h
  | connect sid uid name => exact h
  | disconnect s hs => intro m hm; exact h m hm
  | join s d hs => exact join_conversation_invariant st s d h
  | send s d tf nf ef hs => exact send_message_invariant st s d tf nf ef h
  | markDelivered s d hs => exact mark_as_delivered_invariant st s d h
  | markRead s d hs => exact mark_as_read_invariant st s d h
  | leave s d hs => exact leave_conversation_invariant st s d h
  | tick => exact h

/-- C1: In every reachable state of the system, every message whose read
flag is true also has its delivered flag true together with a delivery
timestamp; marking read force-sets delivered, and no operation ever sets
read without delivered. -/
theorem C1_read_implies_delivered (st : ChatState) (h : Reachable st) :
    ∀ m ∈ st.messages, m.cm_is_read = true →
      m.cm_is_delivered = true ∧ m.cm_delivered_at.isSome = true := by
  obtain ⟨us, hr⟩ := h
  induction hr with
  | refl => intro m hm; exact absurd hm (List.not_mem_nil m)
  | tail _ hstep ih => exact step_preserves_invariant hstep ih

theorem wState5_reachable : Reachable wState5 := by
  refine ⟨wUsers, ?_⟩
  have h1 : Step wState0 wState1 := Step.provision wState0 42 1 2
  have h2 : Step wState1 wState2 := Step.connect wState1 100 1 "Alice"
  have h3 : Step wState2 wState3 :=
    Step.send wState2 wAlice wSend false false false (by decide)
  have h4 : Step wState3 wState4 := Step.connect wState3 200 2 "Bob"
  have h5 : Step wState4 wState5 :=
    Step.markRead wState4 wBob ⟨ConvIdPayload.valid 42⟩ (by decide)
  exact Relation.ReflTransGen.tail
    (Relation.ReflTransGen.tail
      (Relation.ReflTransGen.tail
        (Relation.ReflTransGen.tail
          (Relation.ReflTransGen.tail Relation.ReflTransGen.refl h1) h2) h3) h4) h5

/-- C1 witness: the invariant applied to a concrete reachable state that
holds one message which went through send and mark_as_read. -/
theorem C1_read_implies_delivered_witness :
    Reachable wState5 ∧
      (∀ m ∈ wState5.messages, m.cm_is_read = true →
        m.cm_is_delivered = true ∧ m.cm_delivered_at.isSome = true) :=
  ⟨wState5_reachable, C1_read_implies_delivered wState5 wState5_reachable⟩

/-- Bridge between the personal-room representation of presence and the
session table: when every session is in exactly the personal rooms of its
own user (which the connection handler guarantees), isUserOnline holds
exactly when the user has at least one session. -/
theorem isUserOnline_iff (st : ChatState) (u : Nat)
    (hwf : ∀ s ∈ st.sessions, s.rooms.contains (userRoom u) = (s.user_id == u)) :
    isUserOnline st u = true ↔ ∃ s ∈ st.sessions, s.user_id = u := by
  unfold isUserOnline roomSockets
  simp only [gt_iff_lt, decide_eq_true_eq, List.length_pos_iff_exists_mem, List.mem_filter]
  constructor
  · rintro ⟨s, hs, hc⟩
    rw [hwf s hs] at hc
    exact ⟨s, hs, beq_iff_eq.mp hc⟩
  · rintro ⟨s, hs, hu⟩
    exact ⟨s, hs, by rw [hwf s hs]; exact beq_iff_eq.mpr hu⟩

/-- C5 counterexample: disconnecting one of user 7s two simultaneous
sessions leaves one session in the registry, yet the user_offline
(presence.offline) broadcast for user 7 is emitted anyway — refuting the
claim that it is broadcast only when zero sessions remain. -/
theorem C5_counterexample :
    (roomSockets (disconnectSession wStateTwo wR1).1 (userRoom 7)).length = 1 ∧
    OutEvent.userOffline 1 7 "R" ∈ (disconnectSession wStateTwo wR1).2 := by
  decide

/-- C5 amended: the disconnect handler broadcasts user_offline for the
disconnecting session on every disconnect, regardless of how many of the
users sessions remain; the session itself is removed from the registry. -/
theorem C5_offline_broadcast_unconditional (st : ChatState) (s : Session)
    (hs : s ∈ st.sessions) :
    OutEvent.userOffline s.sid s.user_id s.user_full_name ∈ (disconnectSession st s).2 ∧
    ∀ t : Session, t ∈ (disconnectSession st s).1.sessions ↔ t ∈ st.sessions ∧ t.sid ≠ s.sid := by
  constructor
  · exact List.mem_singleton.mpr rfl
  · intro t
    simp [disconnectSession, List.mem_filter]

/-- C5 amended witness: instantiated on the two-session state. -/
theorem C5_offline_broadcast_unconditional_witness :
    wR1 ∈ wStateTwo.sessions ∧
    (OutEvent.userOffline wR1.sid wR1.user_id wR1.user_full_name ∈
        (disconnectSession wStateTwo wR1).2 ∧
     ∀ t : Session, t ∈ (disconnectSession wStateTwo wR1).1.sessions ↔
        t ∈ wStateTwo.sessions ∧ t.sid ≠ wR1.sid) :=
  ⟨by decide, C5_offline_broadcast_unconditional wStateTwo wR1 (by decide)⟩

/-- C9: a batch presence query with an array input gets exactly one reply
to the requester containing one entry per input element in input order,
each true exactly when that user has a session; a non-array batch payload
and a single query with a missing userId are silently dropped. -/
theorem C9_status_queries (st : ChatState) (requester : Session) (uids : List Nat)
    (hwf : ∀ s ∈ st.sessions, ∀ u ∈ uids,
      s.rooms.contains (userRoom u) = (s.user_id == u)) :
    (∃ sts : List (Nat × Bool),
      check_multiple_users_status st requester (some uids) =
        [OutEvent.multipleUsersStatusResponse requester.sid sts] ∧
      sts.map Prod.fst = uids ∧
      (∀ p ∈ sts, (p.2 = true ↔ ∃ s ∈ st.sessions, s.user_id = p.1))) ∧
    check_multiple_users_status st requester none = [] ∧
    check_user_status st requester none = [] := by
  refine ⟨⟨uids.map (fun u => (u, isUserOnline st u)), rfl, ?_, ?_⟩, rfl, rfl⟩
  · rw [List.map_map]
    exact List.map_id uids
  · intro p hp
    rcases List.mem_map.mp hp with ⟨u, hu, rfl⟩
    exact isUserOnline_iff st u (fun s hs => hwf s hs u hu)

/-- C9 witness: the silent-drop branches instantiated on a concrete state
after discharging the room-consistency hypothesis. -/
theorem C9_status_queries_witness :
    (∀ s ∈ wState4.sessions, ∀ u ∈ ([1, 2, 3] : List Nat),
        s.rooms.contains (userRoom u) = (s.user_id == u)) ∧
    check_multiple_users_status wState4 wAlice none = [] ∧
    check_user_status wState4 wAlice none = [] := by
  have h := C9_status_queries wState4 wAlice [1, 2, 3] (by decide)
  exact ⟨by decide, h.2.1, h.2.2⟩


theorem sendTransaction_messages (st : ChatState) (cid : Nat) (s : Session)
    (tm mt : String) (fu : Option String) (ir : Bool) :
    (sendTransaction st cid s tm mt fu ir).1.messages =
      st.messages ++ [(sendTransaction st cid s tm mt fu ir).2] := rfl

theorem channelPresent_sendTransaction (st : ChatState) (cid : Nat) (s : Session)
    (tm mt : String) (fu : Option String) (ir : Bool) (cid2 u : Nat) :
    channelPresent (sendTransaction st cid s tm mt fu ir).1 cid2 u =
      channelPresent st cid2 u := rfl

theorem isUserOnline_sendTransaction (st : ChatState) (cid : Nat) (s : Session)
    (tm mt : String) (fu : Option String) (ir : Bool) (u : Nat) :
    isUserOnline (sendTransaction st cid s tm mt fu ir).1 u = isUserOnline st u := rfl

theorem isUserOnline_markDeliveredById (st : ChatState) (mid : Nat) (u : Nat) :
    isUserOnline (markDeliveredById st mid) u = isUserOnline st u := rfl

theorem map_deliver_fresh (l : List ChatMessage) (mid t : Nat)
    (hfresh : ∀ m ∈ l, m.cm_id ≠ mid) :
    l.map (fun m => if m.cm_id == mid
        then { m with cm_is_delivered := true, cm_delivered_at := some t } else m) = l := by
  induction l with
  | nil => rfl
  | cons a l ih =>
    have hne : ¬((a.cm_id == mid) = true) := by
      simp only [beq_iff_eq]
      exact hfresh a (List.mem_cons_self a l)
    simp only [List.map_cons, if_neg hne]
    rw [ih (fun m hm => hfresh m (List.mem_cons_of_mem a hm))]

theorem find_id_map_update (l : List ChatConversation) (cid : Nat)
    (g : ChatConversation → ChatConversation)
    (hg : ∀ x, (g x).cc_id = x.cc_id)
    (c0 : ChatConversation)
    (h : l.find? (fun x => x.cc_id == cid) = some c0) :
    (l.map (fun x => if x.cc_id == cid then g x else x)).find?
        (fun x => x.cc_id == cid) = some (g c0) := by
  induction l with
  | nil => simp at h
  | cons a l ih =>
    by_cases ha : (a.cc_id == cid) = true
    · simp only [List.find?, ha] at h
      injection h with h
      subst h
      have hga : ((g a).cc_id == cid) = true := by rw [hg a]; exact ha
      simp only [List.map_cons, if_pos ha, List.find?, hga]
    · have ha2 : (a.cc_id == cid) = false := by
        cases hb : (a.cc_id == cid) with
        | false => rfl
        | true => exact absurd hb ha
      simp only [List.find?, ha2] at h
      rw [List.map_cons, if_neg ha]
      simp only [List.find?, ha2]
      exact ih h

theorem offlineFallback_conversations (st : ChatState) (r : Nat) (n t : String)
    (c : Nat) (nf ef : Bool) :
    (offlineFallback st r n t c nf ef).conversations = st.conversations := by
  unfold offlineFallback
  split
  · rfl
  · dsimp only
    split <;> rfl

theorem offlineFallback_notifFail (st : ChatState) (r : Nat) (n t : String)
    (c : Nat) (ef : Bool) :
    offlineFallback st r n t c true ef = st := rfl

theorem offlineFallback_effects (st : ChatState) (r : Nat) (n t : String)
    (c : Nat) (ef : Bool) :
    (offlineFallback st r n t c false ef).notifications =
      st.notifications ++
        [{ user_id := r, notification_name := "new_chat_message",
           notification_heading := "New message from " ++ n,
           notification_text := jsSubstring t 100, notification_image := none,
           is_read := false, status := true }] ∧
    ((∃ u, st.users.find? (fun x => x.user_id == r) = some u ∧
        (offlineFallback st r n t c false ef).emails =
          st.emails ++ [{ recipient_email := u.user_email, sender_name := n,
                          preview := jsSubstring t 200, conversationId := c }]) ∨
     (st.users.find? (fun x => x.user_id == r) = none ∧
        (offlineFallback st r n t c false ef).emails = st.emails)) := by
  unfold offlineFallback
  dsimp only
  cases hfind : st.users.find? (fun x => x.user_id == r) with
  | none =>
      refine ⟨?_, Or.inr ⟨rfl, ?_⟩⟩ <;> simp [createNotification, hfind]
  | some u =>
      refine ⟨?_, Or.inl ⟨u, rfl, ?_⟩⟩ <;>
        simp [createNotification, sendChatMessageEmail, hfind]

theorem markDeliveredById_sendTransaction_messages (st : ChatState) (cid : Nat)
    (s : Session) (tm mt : String) (fu : Option String) (ir : Bool)
    (hfresh : ∀ m ∈ st.messages, m.cm_id ≠ st.nextMessageId) :
    (markDeliveredById (sendTransaction st cid s tm mt fu ir).1
        (sendTransaction st cid s tm mt fu ir).2.cm_id).messages =
      st.messages ++
        [{ (sendTransaction st cid s tm mt fu ir).2 with
            cm_is_delivered := true, cm_delivered_at := some st.now }] := by
  unfold markDeliveredById
  dsimp only
  have h2 : (sendTransaction st cid s tm mt fu ir).2.cm_id = st.nextMessageId := rfl
  rw [h2, sendTransaction_messages, List.map_append, map_deliver_fresh _ _ _ hfresh]
  simp [h2]
  rfl

theorem sendCore_messages (st : ChatState) (s : Session) (cid : Nat)
    (tm mt : String) (fu : Option String) (c : ChatConversation) (nf ef : Bool)
    (hfresh : ∀ m ∈ st.messages, m.cm_id ≠ st.nextMessageId) :
    ∃ m : ChatMessage,
      (sendCore st s cid tm mt fu c nf ef).1.messages = st.messages ++ [m] ∧
      m.cm_message = tm ∧ m.cc_id = cid ∧ m.sender_user_id = s.user_id ∧
      m.cm_message_type = mt ∧ m.cm_file_url = fu ∧
      m.cm_is_read = false ∧ m.cm_read_at = none ∧
      m.cm_is_delivered = channelPresent st cid (otherParticipant c s.user_id) ∧
      m.cm_delivered_at =
        (if channelPresent st cid (otherParticipant c s.user_id)
         then some st.now else none) := by
  unfold sendCore
  dsimp only
  rw [channelPresent_sendTransaction]
  split
  · rename_i hb
    split
    · refine ⟨{ (sendTransaction st cid s tm mt fu
          (c.recruiter_user_id == s.user_id)).2 with
            cm_is_delivered := true, cm_delivered_at := some st.now },
        ?_, rfl, rfl, rfl, rfl, rfl, rfl, rfl, ?_, ?_⟩
      · exact markDeliveredById_sendTransaction_messages st cid s tm mt fu _ hfresh
      · simp [hb]
      · simp [hb]
    · refine ⟨{ (sendTransaction st cid s tm mt fu
          (c.recruiter_user_id == s.user_id)).2 with
            cm_is_delivered := true, cm_delivered_at := some st.now },
        ?_, rfl, rfl, rfl, rfl, rfl, rfl, rfl, ?_, ?_⟩
      · rw [offlineFallback_messages]
        exact markDeliveredById_sendTransaction_messages st cid s tm mt fu _ hfresh
      · simp [hb]
      · simp [hb]
  · rename_i hb
    rw [Bool.not_eq_true] at hb
    split
    · refine ⟨(sendTransaction st cid s tm mt fu
          (c.recruiter_user_id == s.user_id)).2,
        ?_, rfl, rfl, rfl, rfl, rfl, rfl, rfl, ?_, ?_⟩
      · exact sendTransaction_messages st cid s tm mt fu _
      · rw [hb]; rfl
      · rfl
    · refine ⟨(sendTransaction st cid s tm mt fu
          (c.recruiter_user_id == s.user_id)).2,
        ?_, rfl, rfl, rfl, rfl, rfl, rfl, rfl, ?_, ?_⟩
      · rw [offlineFallback_messages]
        exact sendTransaction_messages st cid s tm mt fu _
      · rw [hb]; rfl
      · rfl

theorem sendCore_conversations_eq (st : ChatState) (s : Session) (cid : Nat)
    (tm mt : String) (fu : Option String) (c : ChatConversation) (nf ef : Bool) :
    (sendCore st s cid tm mt fu c nf ef).1.conversations =
      st.conversations.map (fun x => if x.cc_id == cid
        then convAfterSend x (c.recruiter_user_id == s.user_id) tm st.now else x) := by
  unfold sendCore
  dsimp only
  repeat' split
  all_goals first
    | rfl
    | (rw [offlineFallback_conversations]; rfl)

theorem sendCore_getConv (st : ChatState) (s : Session) (cid : Nat)
    (tm mt : String) (fu : Option String) (c : ChatConversation) (nf ef : Bool)
    (c0 : ChatConversation) (h0 : getConv st cid = some c0) :
    getConv (sendCore st s cid tm mt fu c nf ef).1 cid =
      some (convAfterSend c0 (c.recruiter_user_id == s.user_id) tm st.now) := by
  unfold getConv at h0 ⊢
  rw [sendCore_conversations_eq]
  exact find_id_map_update st.conversations cid
    (fun x => convAfterSend x (c.recruiter_user_id == s.user_id) tm st.now)
    (fun x => rfl) c0 h0

theorem sendCore_events (st : ChatState) (s : Session) (cid : Nat)
    (tm mt : String) (fu : Option String) (c : ChatConversation) (nf ef : Bool) :
    ∃ mws : ChatMessage,
      (sendCore st s cid tm mt fu c nf ef).2 =
        [OutEvent.newMessage (conversationRoom cid) mws s.user_id s.user_full_name,
         OutEvent.messageNotification (userRoom (otherParticipant c s.user_id)) cid
           (jsSubstring tm 50) s.user_full_name] := by
  unfold sendCore
  dsimp only
  repeat' split
  all_goals exact ⟨_, rfl⟩

theorem sendCore_online_no_fallback (st : ChatState) (s : Session) (cid : Nat)
    (tm mt : String) (fu : Option String) (c : ChatConversation) (nf ef : Bool)
    (hon : isUserOnline st (otherParticipant c s.user_id) = true) :
    (sendCore st s cid tm mt fu c nf ef).1.notifications = st.notifications ∧
    (sendCore st s cid tm mt fu c nf ef).1.emails = st.emails := by
  unfold sendCore
  dsimp only
  split
  · split
    · exact ⟨rfl, rfl⟩
    · rename_i hoff
      rw [isUserOnline_markDeliveredById, isUserOnline_sendTransaction] at hoff
      exact absurd hon hoff
  · split
    · exact ⟨rfl, rfl⟩
    · rename_i hoff
      rw [isUserOnline_sendTransaction] at hoff
      exact absurd hon hoff

theorem sendCore_offline_fallback (st : ChatState) (s : Session) (cid : Nat)
    (tm mt : String) (fu : Option String) (c : ChatConversation) (ef : Bool)
    (hoff : isUserOnline st (otherParticipant c s.user_id) = false) :
    (sendCore st s cid tm mt fu c false ef).1.notifications =
      st.notifications ++
        [{ user_id := otherParticipant c s.user_id,
           notification_name := "new_chat_message",
           notification_heading := "New message from " ++ s.user_full_name,
           notification_text := jsSubstring tm 100, notification_image := none,
           is_read := false, status := true }] ∧
    ((∃ u, st.users.find? (fun x => x.user_id == otherParticipant c s.user_id) = some u ∧
        (sendCore st s cid tm mt fu c false ef).1.emails =
          st.emails ++ [{ recipient_email := u.user_email,
                          sender_name := s.user_full_name,
                          preview := jsSubstring tm 200, conversationId := cid }]) ∨
     (st.users.find? (fun x => x.user_id == otherParticipant c s.user_id) = none ∧
        (sendCore st s cid tm mt fu c false ef).1.emails = st.emails)) := by
  unfold sendCore
  dsimp only
  split
  · split
    · rename_i hon
      rw [isUserOnline_markDeliveredById, isUserOnline_sendTransaction, hoff] at hon
      exact absurd hon Bool.false_ne_true
    · exact offlineFallback_effects _ _ _ _ _ ef
  · split
    · rename_i hon
      rw [isUserOnline_sendTransaction, hoff] at hon
      exact absurd hon Bool.false_ne_true
    · exact offlineFallback_effects _ _ _ _ _ ef

theorem sendCore_notifFail_no_effects (st : ChatState) (s : Session) (cid : Nat)
    (tm mt : String) (fu : Option String) (c : ChatConversation) (ef : Bool) :
    (sendCore st s cid tm mt fu c true ef).1.notifications = st.notifications ∧
    (sendCore st s cid tm mt fu c true ef).1.emails = st.emails := by
  unfold sendCore
  dsimp only
  repeat' split
  all_goals exact ⟨rfl, rfl⟩

theorem send_message_valid_txFail (st : ChatState) (sender : Session) (d : SendData)
    (cid : Nat) (raw : String) (c : ChatConversation) (nf ef : Bool)
    (hcid : d.conversationId = ConvIdPayload.valid cid)
    (hmsg : d.message = some raw)
    (htrim : ¬ jsTrim raw = "")
    (hconv : findActiveConversation st cid sender.user_id = some c) :
    send_message st sender d true nf ef =
      (st, [OutEvent.errorTo sender.sid "Failed to send message"]) := by
  have ht : (jsTrim raw == "") = false := by
    rw [beq_eq_false_iff_ne]
    exact htrim
  unfold send_message
  rw [hcid, hmsg]
  dsimp only
  rw [ht]
  simp only [Bool.false_eq_true, if_false]
  rw [hconv]
  simp

theorem send_message_valid_success (st : ChatState) (sender : Session) (d : SendData)
    (cid : Nat) (raw : String) (c : ChatConversation) (nf ef : Bool)
    (hcid : d.conversationId = ConvIdPayload.valid cid)
    (hmsg : d.message = some raw)
    (htrim : ¬ jsTrim raw = "")
    (hconv : findActiveConversation st cid sender.user_id = some c) :
    send_message st sender d false nf ef =
      sendCore st sender cid (jsTrim raw) d.messageType d.fileUrl c nf ef := by
  have ht : (jsTrim raw == "") = false := by
    rw [beq_eq_false_iff_ne]
    exact htrim
  unfold send_message
  rw [hcid, hmsg]
  dsimp only
  rw [ht]
  simp only [Bool.false_eq_true, if_false]
  rw [hconv]

theorem channelPresent_iff (st : ChatState) (cid u : Nat) :
    channelPresent st cid u = true ↔
      ∃ t ∈ st.sessions, t.rooms.contains (conversationRoom cid) = true ∧ t.user_id = u := by
  unfold channelPresent roomSockets
  simp only [List.any_eq_true, List.mem_filter, beq_iff_eq]
  constructor
  · rintro ⟨t, ⟨ht, hr⟩, hu⟩
    exact ⟨t, ht, hr, hu⟩
  · rintro ⟨t, ht, hr, hu⟩
    exact ⟨t, ⟨ht, hr⟩, hu⟩

/-- C2: A successful send commits, as one atomic unit, the message insert
(read and delivered both false, i.e. status Sent), the conversation
last-message preview and timestamp update, and the increment by exactly
one of the other participants unread counter (the senders own counter is
untouched); a store failure during the send commits none of them and the
sender receives an error event. -/
theorem C2_send_atomic (st : ChatState) (sender : Session) (d : SendData)
    (cid : Nat) (raw : String) (c : ChatConversation) (nf ef : Bool)
    (hcid : d.conversationId = ConvIdPayload.valid cid)
    (hmsg : d.message = some raw)
    (htrim : ¬ jsTrim raw = "")
    (hconv : findActiveConversation st cid sender.user_id = some c)
    (hfirst : getConv st cid = some c)
    (hfresh : ∀ m ∈ st.messages, m.cm_id ≠ st.nextMessageId) :
    ((send_message st sender d true nf ef).1 = st ∧
     (send_message st sender d true nf ef).2 =
       [OutEvent.errorTo sender.sid "Failed to send message"]) ∧
    (∃ m, (send_message st sender d false nf ef).1.messages = st.messages ++ [m] ∧
       m.cm_message = jsTrim raw ∧ m.cc_id = cid ∧
       m.sender_user_id = sender.user_id ∧ m.cm_is_read = false) ∧
    (∃ c2, getConv (send_message st sender d false nf ef).1 cid = some c2 ∧
       c2.cc_last_message = some (jsSubstring (jsTrim raw) 255) ∧
       c2.cc_last_message_at = some st.now ∧
       (c.recruiter_user_id = sender.user_id →
          c2.cc_unread_count_talent = c.cc_unread_count_talent + 1 ∧
          c2.cc_unread_count_recruiter = c.cc_unread_count_recruiter) ∧
       (¬ c.recruiter_user_id = sender.user_id →
          c2.cc_unread_count_recruiter = c.cc_unread_count_recruiter + 1 ∧
          c2.cc_unread_count_talent = c.cc_unread_count_talent)) := by
  refine ⟨?_, ?_, ?_⟩
  · rw [send_message_valid_txFail st sender d cid raw c nf ef hcid hmsg htrim hconv]
    exact ⟨rfl, rfl⟩
  · rw [send_message_valid_success st sender d cid raw c nf ef hcid hmsg htrim hconv]
    obtain ⟨m, hm, h1, h2, h3, _, _, h6, _, _, _⟩ :=
      sendCore_messages st sender cid (jsTrim raw) d.messageType d.fileUrl c nf ef hfresh
    exact ⟨m, hm, h1, h2, h3, h6⟩
  · rw [send_message_valid_success st sender d cid raw c nf ef hcid hmsg htrim hconv]
    refine ⟨convAfterSend c (c.recruiter_user_id == sender.user_id) (jsTrim raw) st.now,
      sendCore_getConv st sender cid (jsTrim raw) d.messageType d.fileUrl c nf ef c hfirst,
      rfl, rfl, ?_, ?_⟩
    · intro hr
      have hb : (c.recruiter_user_id == sender.user_id) = true := beq_iff_eq.mpr hr
      unfold convAfterSend
      rw [hb]
      exact ⟨rfl, rfl⟩
    · intro hr
      have hb : (c.recruiter_user_id == sender.user_id) = false := by
        rw [beq_eq_false_iff_ne]
        exact hr
      unfold convAfterSend
      rw [hb]
      exact ⟨rfl, rfl⟩

/-- C2 witness: instantiated on the concrete state with Alice connected
and conversation 42 provisioned. -/
theorem C2_send_atomic_witness :
    (send_message wState2 wAlice wSend true false false).1 = wState2 ∧
    (send_message wState2 wAlice wSend true false false).2 =
      [OutEvent.errorTo wAlice.sid "Failed to send message"] := by
  have h := C2_send_atomic wState2 wAlice wSend 42 "  Hello Bob!  "
    (freshConversation 42 1 2) false false (by decide) (by decide) (by decide)
    (by decide) (by decide) (by decide)
  exact h.1

/-- C3: at send time the stored message is transitioned to Delivered with
a non-null timestamp exactly when the recipient has at least one session
subscribed to the conversation room at that instant; a recipient who is
online somewhere but has no session in the conversation room gets neither
delivered=true nor an offline notification (notification and email tables
are untouched). -/
theorem C3_immediate_delivery_iff_channel (st : ChatState) (sender : Session)
    (d : SendData) (cid : Nat) (raw : String) (c : ChatConversation) (nf ef : Bool)
    (hcid : d.conversationId = ConvIdPayload.valid cid)
    (hmsg : d.message = some raw)
    (htrim : ¬ jsTrim raw = "")
    (hconv : findActiveConversation st cid sender.user_id = some c)
    (hfresh : ∀ m ∈ st.messages, m.cm_id ≠ st.nextMessageId) :
    ∃ m, (send_message st sender d false nf ef).1.messages = st.messages ++ [m] ∧
      ((m.cm_is_delivered = true ∧ m.cm_delivered_at = some st.now) ↔
        (∃ t ∈ st.sessions, t.rooms.contains (conversationRoom cid) = true ∧
          t.user_id = otherParticipant c sender.user_id)) ∧
      (isUserOnline st (otherParticipant c sender.user_id) = true →
        channelPresent st cid (otherParticipant c sender.user_id) = false →
          m.cm_is_delivered = false ∧ m.cm_delivered_at = none ∧
          (send_message st sender d false nf ef).1.notifications = st.notifications ∧
          (send_message st sender d false nf ef).1.emails = st.emails) := by
  rw [send_message_valid_success st sender d cid raw c nf ef hcid hmsg htrim hconv]
  obtain ⟨m, hm, _, _, _, _, _, _, _, h9, h10⟩ :=
    sendCore_messages st sender cid (jsTrim raw) d.messageType d.fileUrl c nf ef hfresh
  refine ⟨m, hm, ?_, ?_⟩
  · rw [← channelPresent_iff]
    constructor
    · rintro ⟨hd, _⟩
      rw [← h9]
      exact hd
    · intro hcp
      rw [hcp] at h9 h10
      exact ⟨h9, by rw [h10]; rfl⟩
  · intro hon hcp
    rw [hcp] at h9 h10
    have hne := sendCore_online_no_fallback st sender cid (jsTrim raw)
      d.messageType d.fileUrl c nf ef hon
    exact ⟨h9, by rw [h10]; rfl, hne.1, hne.2⟩

/-- C3 witness: Bob is globally online but not subscribed to conversation
42; a send leaves the notification and email tables untouched. -/
theorem C3_immediate_delivery_iff_channel_witness :
    (send_message wStateB wAlice wSend false false false).1.notifications = [] ∧
    (send_message wStateB wAlice wSend false false false).1.emails = [] := by
  obtain ⟨m, hm, hiff, himp⟩ := C3_immediate_delivery_iff_channel wStateB wAlice wSend
    42 "  Hello Bob!  " (freshConversation 42 1 2) false false
    (by decide) (by decide) (by decide) (by decide) (by decide)
  have h2 := himp (by decide) (by decide)
  exact ⟨h2.2.2.1.trans (by decide), h2.2.2.2.trans (by decide)⟩

/-- C10: in a successful send the stored body is only trimmed, never
truncated, while the derived texts are truncated to fixed lengths: the
conversation preview to 255 characters, the personal-room
message_notification to 50, the offline notification body to 100 and the
email preview to 200. -/
theorem C10_truncations (st : ChatState) (sender : Session) (d : SendData)
    (cid : Nat) (raw : String) (c : ChatConversation)
    (hcid : d.conversationId = ConvIdPayload.valid cid)
    (hmsg : d.message = some raw)
    (htrim : ¬ jsTrim raw = "")
    (hconv : findActiveConversation st cid sender.user_id = some c)
    (hfirst : getConv st cid = some c)
    (hfresh : ∀ m ∈ st.messages, m.cm_id ≠ st.nextMessageId) :
    (∃ m, (send_message st sender d false false false).1.messages =
        st.messages ++ [m] ∧ m.cm_message = jsTrim raw) ∧
    (∃ c2, getConv (send_message st sender d false false false).1 cid = some c2 ∧
        c2.cc_last_message = some (jsSubstring (jsTrim raw) 255)) ∧
    (∃ mws, (send_message st sender d false false false).2 =
        [OutEvent.newMessage (conversationRoom cid) mws sender.user_id sender.user_full_name,
         OutEvent.messageNotification (userRoom (otherParticipant c sender.user_id)) cid
           (jsSubstring (jsTrim raw) 50) sender.user_full_name]) ∧
    (isUserOnline st (otherParticipant c sender.user_id) = false →
      (send_message st sender d false false false).1.notifications =
        st.notifications ++
          [{ user_id := otherParticipant c sender.user_id,
             notification_name := "new_chat_message",
             notification_heading := "New message from " ++ sender.user_full_name,
             notification_text := jsSubstring (jsTrim raw) 100,
             notification_image := none, is_read := false, status := true }] ∧
      (∀ u, st.users.find? (fun x => x.user_id == otherParticipant c sender.user_id) =
          some u →
        (send_message st sender d false false false).1.emails =
          st.emails ++ [{ recipient_email := u.user_email,
                          sender_name := sender.user_full_name,
                          preview := jsSubstring (jsTrim raw) 200,
                          conversationId := cid }])) := by
  rw [send_message_valid_success st sender d cid raw c false false hcid hmsg htrim hconv]
  refine ⟨?_, ?_, ?_, ?_⟩
  · obtain ⟨m, hm, h1, _⟩ :=
      sendCore_messages st sender cid (jsTrim raw) d.messageType d.fileUrl c false false hfresh
    exact ⟨m, hm, h1⟩
  · exact ⟨convAfterSend c (c.recruiter_user_id == sender.user_id) (jsTrim raw) st.now,
      sendCore_getConv st sender cid (jsTrim raw) d.messageType d.fileUrl c false false
        c hfirst, rfl⟩
  · exact sendCore_events st sender cid (jsTrim raw) d.messageType d.fileUrl c false false
  · intro hoff
    obtain ⟨hn, he⟩ := sendCore_offline_fallback st sender cid (jsTrim raw)
      d.messageType d.fileUrl c false hoff
    refine ⟨hn, ?_⟩
    intro u hu
    rcases he with ⟨u2, hu2, hemails⟩ | ⟨hnone, _⟩
    · rw [hu] at hu2
      injection hu2 with hu2
      rw [hu2]
      exact hemails
    · rw [hu] at hnone
      exact absurd hnone (Option.some_ne_none u)

/-- C10 witness: the truncation facts instantiated on the concrete state
with Alice connected, Bob offline, and a short message. -/
theorem C10_truncations_witness :
    (send_message wState2 wAlice wSend false false false).1.notifications =
      [{ user_id := 2, notification_name := "new_chat_message",
         notification_heading := "New message from Alice",
         notification_text := jsSubstring (jsTrim "  Hello Bob!  ") 100,
         notification_image := none, is_read := false, status := true }] := by
  have h := C10_truncations wState2 wAlice wSend 42 "  Hello Bob!  "
    (freshConversation 42 1 2) (by decide) (by decide) (by decide)
    (by decide) (by decide) (by decide)
  have h4 := (h.2.2.2 (by decide)).1
  rw [h4]
  decide

/-- C4 counterexample: with the recipient offline at send time, a failure
in the notification-creation step also skips the email attempt entirely:
after this send there are zero email attempts (and zero notification
rows), not exactly one of each, so the two steps are not independently
fault-tolerant. -/
theorem C4_counterexample :
    isUserOnline wState2 2 = false ∧
    (send_message wState2 wAlice wSend false true false).1.emails.length = 0 ∧
    (send_message wState2 wAlice wSend false true false).1.notifications.length = 0 := by
  decide

/-- C4 amended: when the recipient has zero sessions at send time, one
Notification record is created and then, provided the recipient exists in
the user table, exactly one email attempt is made; the two steps sit in a
single fault barrier: a notification-step failure skips the email attempt,
is only logged, never reaches the sender, and never undoes the committed
message. -/
theorem C4_offline_fallback_behavior (st : ChatState) (sender : Session)
    (d : SendData) (cid : Nat) (raw : String) (c : ChatConversation) (ef : Bool)
    (hcid : d.conversationId = ConvIdPayload.valid cid)
    (hmsg : d.message = some raw)
    (htrim : ¬ jsTrim raw = "")
    (hconv : findActiveConversation st cid sender.user_id = some c)
    (hfresh : ∀ m ∈ st.messages, m.cm_id ≠ st.nextMessageId)
    (hoff : isUserOnline st (otherParticipant c sender.user_id) = false) :
    ((send_message st sender d false false ef).1.notifications =
        st.notifications ++
          [{ user_id := otherParticipant c sender.user_id,
             notification_name := "new_chat_message",
             notification_heading := "New message from " ++ sender.user_full_name,
             notification_text := jsSubstring (jsTrim raw) 100,
             notification_image := none, is_read := false, status := true }] ∧
     (∀ u, st.users.find? (fun x => x.user_id == otherParticipant c sender.user_id) =
          some u →
        (send_message st sender d false false ef).1.emails =
          st.emails ++ [{ recipient_email := u.user_email,
                          sender_name := sender.user_full_name,
                          preview := jsSubstring (jsTrim raw) 200,
                          conversationId := cid }]) ∧
     (st.users.find? (fun x => x.user_id == otherParticipant c sender.user_id) = none →
        (send_message st sender d false false ef).1.emails = st.emails)) ∧
    ((send_message st sender d false true ef).1.notifications = st.notifications ∧
     (send_message st sender d false true ef).1.emails = st.emails ∧
     (∃ m, (send_message st sender d false true ef).1.messages = st.messages ++ [m]) ∧
     (∀ e ∈ (send_message st sender d false true ef).2,
        ∀ sid msg, ¬ e = OutEvent.errorTo sid msg)) := by
  constructor
  · rw [send_message_valid_success st sender d cid raw c false ef hcid hmsg htrim hconv]
    obtain ⟨hn, he⟩ := sendCore_offline_fallback st sender cid (jsTrim raw)
      d.messageType d.fileUrl c ef hoff
    refine ⟨hn, ?_, ?_⟩
    · intro u hu
      rcases he with ⟨u2, hu2, hemails⟩ | ⟨hnone, _⟩
      · rw [hu] at hu2
        injection hu2 with hu2
        rw [hu2]
        exact hemails
      · rw [hu] at hnone
        exact absurd hnone (Option.some_ne_none u)
    · intro hnone
      rcases he with ⟨u2, hu2, _⟩ | ⟨_, hemails⟩
      · rw [hnone] at hu2
        exact absurd hu2.symm (Option.some_ne_none u2)
      · exact hemails
  · rw [send_message_valid_success st sender d cid raw c true ef hcid hmsg htrim hconv]
    obtain ⟨hn, he⟩ := sendCore_notifFail_no_effects st sender cid (jsTrim raw)
      d.messageType d.fileUrl c ef
    obtain ⟨m, hm, _⟩ :=
      sendCore_messages st sender cid (jsTrim raw) d.messageType d.fileUrl c true ef hfresh
    obtain ⟨mws, hev⟩ :=
      sendCore_events st sender cid (jsTrim raw) d.messageType d.fileUrl c true ef
    refine ⟨hn, he, ⟨m, hm⟩, ?_⟩
    rw [hev]
    intro e hee sid msg
    rcases List.mem_cons.mp hee with rfl | hee2
    · intro hcontra
      cases hcontra
    · rcases List.mem_cons.mp hee2 with rfl | hee3
      · intro hcontra
        cases hcontra
      · exact absurd hee3 (List.not_mem_nil e)

/-- C4 amended witness: the notification-failure half instantiated on the
concrete state with Bob offline. -/
theorem C4_offline_fallback_behavior_witness :
    (send_message wState2 wAlice wSend false true false).1.notifications =
      wState2.notifications ∧
    (send_message wState2 wAlice wSend false true false).1.emails = wState2.emails := by
  have h := C4_offline_fallback_behavior wState2 wAlice wSend 42 "  Hello Bob!  "
    (freshConversation 42 1 2) false (by decide) (by decide) (by decide)
    (by decide) (by decide) (by decide)
  exact ⟨h.2.1, h.2.2.1⟩

/-- C6: a successful join of a conversation channel by a participant
transitions every message of that conversation not sent by the joiner and
not yet delivered to delivered with a delivery timestamp, leaves messages
from the joiner and already-delivered messages unchanged (and creates or
deletes none), and notifies the other participants personal room with one
messages_delivered event for the conversation. -/
theorem C6_join_catchup (st : ChatState) (joiner : Session) (d : ConvData)
    (cid : Nat) (c : ChatConversation)
    (hcid : d.conversationId = ConvIdPayload.valid cid)
    (hconv : findActiveConversation st cid joiner.user_id = some c) :
    (join_conversation st joiner d).1.messages.length = st.messages.length ∧
    (∀ m ∈ st.messages, m.cc_id = cid → ¬ m.sender_user_id = joiner.user_id →
       m.cm_is_delivered = false →
       { m with cm_is_delivered := true, cm_delivered_at := some st.now } ∈
         (join_conversation st joiner d).1.messages) ∧
    (∀ m ∈ st.messages,
       (¬ m.cc_id = cid ∨ m.sender_user_id = joiner.user_id ∨ m.cm_is_delivered = true) →
       m ∈ (join_conversation st joiner d).1.messages) ∧
    (∀ m ∈ (join_conversation st joiner d).1.messages, m.cc_id = cid →
       ¬ m.sender_user_id = joiner.user_id → m.cm_is_delivered = true) ∧
    (join_conversation st joiner d).2 =
      [OutEvent.joinedConversation joiner.sid cid,
       OutEvent.messagesDelivered (userRoom (otherParticipant c joiner.user_id)) cid] := by
  unfold join_conversation
  rw [hcid]
  dsimp only
  rw [hconv]
  dsimp only
  refine ⟨List.length_map _ _, ?_, ?_, ?_, rfl⟩
  · intro m hm h1 h2 h3
    have hcond : (m.cc_id == cid && !(m.sender_user_id == joiner.user_id) &&
        !m.cm_is_delivered) = true := by
      simp [h1, h2, h3]
    have hg : (if (m.cc_id == cid && !(m.sender_user_id == joiner.user_id) &&
          !m.cm_is_delivered) = true
        then { m with cm_is_delivered := true, cm_delivered_at := some st.now }
        else m) =
        { m with cm_is_delivered := true, cm_delivered_at := some st.now } :=
      if_pos hcond
    rw [← hg]
    exact List.mem_map_of_mem _ hm
  · intro m hm hcase
    have hcond : ¬ ((m.cc_id == cid && !(m.sender_user_id == joiner.user_id) &&
        !m.cm_is_delivered) = true) := by
      rcases hcase with h | h | h <;> simp [h]
    have hg : (if (m.cc_id == cid && !(m.sender_user_id == joiner.user_id) &&
          !m.cm_is_delivered) = true
        then { m with cm_is_delivered := true, cm_delivered_at := some st.now }
        else m) = m :=
      if_neg hcond
    rw [← hg]
    exact List.mem_map_of_mem _ hm
  · intro m2 hm2 h1 h2
    rcases List.mem_map.mp hm2 with ⟨a, ha, rfl⟩
    by_cases hcond : (a.cc_id == cid && !(a.sender_user_id == joiner.user_id) &&
        !a.cm_is_delivered) = true
    · rw [if_pos hcond]
    · rw [if_neg hcond] at h1 h2 ⊢
      have hA : (a.cc_id == cid) = true := beq_iff_eq.mpr h1
      have hB : (!(a.sender_user_id == joiner.user_id)) = true := by
        simp [h2]
      cases hC : a.cm_is_delivered
      · exact absurd (by simp [hA, hB, hC]) hcond
      · rfl

/-- C6 witness: Bob joins conversation 42 while one undelivered message
from Alice is pending; the join emits the acknowledgment and one
messages_delivered event to Alices personal room. -/
theorem C6_join_catchup_witness :
    (join_conversation wState4 wBob ⟨ConvIdPayload.valid 42⟩).2 =
      [OutEvent.joinedConversation 200 42,
       OutEvent.messagesDelivered (userRoom 1) 42] := by
  have h := C6_join_catchup wState4 wBob ⟨ConvIdPayload.valid 42⟩ 42
    wConv42 (by decide) (by decide)
  exact h.2.2.2.2

/-- C7: mark_as_read by a participant of an existing conversation
transitions every message of that conversation not sent by the caller and
not yet read to read and delivered with timestamps (creating or deleting
none, leaving the callers own and already-read messages unchanged, and
leaving no unread message from the other side), resets the callers own
unread counter to zero while leaving the other sides counter untouched,
and sends exactly one messages_read event for the conversation to the
other participants personal room. -/
theorem C7_mark_read (st : ChatState) (caller : Session) (d : ConvData)
    (cid : Nat) (c : ChatConversation)
    (hcid : d.conversationId = ConvIdPayload.valid cid)
    (hconv : findAnyConversation st cid caller.user_id = some c)
    (hfirst : getConv st cid = some c) :
    (mark_as_read st caller d).1.messages.length = st.messages.length ∧
    (∀ m ∈ st.messages, m.cc_id = cid → ¬ m.sender_user_id = caller.user_id →
       m.cm_is_read = false →
       { m with cm_is_delivered := true, cm_delivered_at := some st.now,
                cm_is_read := true, cm_read_at := some st.now } ∈
         (mark_as_read st caller d).1.messages) ∧
    (∀ m ∈ st.messages,
       (¬ m.cc_id = cid ∨ m.sender_user_id = caller.user_id ∨ m.cm_is_read = true) →
       m ∈ (mark_as_read st caller d).1.messages) ∧
    (∀ m ∈ (mark_as_read st caller d).1.messages, m.cc_id = cid →
       ¬ m.sender_user_id = caller.user_id → m.cm_is_read = true) ∧
    (∃ c2, getConv (mark_as_read st caller d).1 cid = some c2 ∧
       (c.recruiter_user_id = caller.user_id →
          c2.cc_unread_count_recruiter = 0 ∧
          c2.cc_unread_count_talent = c.cc_unread_count_talent) ∧
       (¬ c.recruiter_user_id = caller.user_id →
          c2.cc_unread_count_talent = 0 ∧
          c2.cc_unread_count_recruiter = c.cc_unread_count_recruiter)) ∧
    ((mark_as_read st caller d).2.count
      (OutEvent.messagesRead (userRoom (otherParticipant c caller.user_id)) cid)) = 1 := by
  unfold mark_as_read
  rw [hcid]
  dsimp only
  rw [hconv]
  dsimp only
  refine ⟨List.length_map _ _, ?_, ?_, ?_, ?_, ?_⟩
  · intro m hm h1 h2 h3
    have hcond : (m.cc_id == cid && !(m.sender_user_id == caller.user_id) &&
        !m.cm_is_read) = true := by
      simp [h1, h2, h3]
    have hg : (if (m.cc_id == cid && !(m.sender_user_id == caller.user_id) &&
          !m.cm_is_read) = true
        then { m with cm_is_delivered := true, cm_delivered_at := some st.now,
                      cm_is_read := true, cm_read_at := some st.now }
        else m) =
        { m with cm_is_delivered := true, cm_delivered_at := some st.now,
                 cm_is_read := true, cm_read_at := some st.now } :=
      if_pos hcond
    rw [← hg]
    exact List.mem_map_of_mem _ hm
  · intro m hm hcase
    have hcond : ¬ ((m.cc_id == cid && !(m.sender_user_id == caller.user_id) &&
        !m.cm_is_read) = true) := by
      rcases hcase with h | h | h <;> simp [h]
    have hg : (if (m.cc_id == cid && !(m.sender_user_id == caller.user_id) &&
          !m.cm_is_read) = true
        then { m with cm_is_delivered := true, cm_delivered_at := some st.now,
                      cm_is_read := true, cm_read_at := some st.now }
        else m) = m :=
      if_neg hcond
    rw [← hg]
    exact List.mem_map_of_mem _ hm
  · intro m2 hm2 h1 h2
    rcases List.mem_map.mp hm2 with ⟨a, ha, rfl⟩
    by_cases hcond : (a.cc_id == cid && !(a.sender_user_id == caller.user_id) &&
        !a.cm_is_read) = true
    · rw [if_pos hcond]
    · rw [if_neg hcond] at h1 h2 ⊢
      have hA : (a.cc_id == cid) = true := beq_iff_eq.mpr h1
      have hB : (!(a.sender_user_id == caller.user_id)) = true := by
        simp [h2]
      cases hC : a.cm_is_read
      · exact absurd (by simp [hA, hB, hC]) hcond
      · rfl
  · have hgc := find_id_map_update st.conversations cid
      (fun c0 => if (c.recruiter_user_id == caller.user_id) = true
        then { c0 with cc_unread_count_recruiter := 0 }
        else { c0 with cc_unread_count_talent := 0 })
      (fun x => by cases hb : (c.recruiter_user_id == caller.user_id) <;> simp [hb])
      c hfirst
    refine ⟨_, hgc, ?_, ?_⟩
    · intro hr
      have hb : (c.recruiter_user_id == caller.user_id) = true := beq_iff_eq.mpr hr
      rw [hb]
      exact ⟨rfl, rfl⟩
    · intro hr
      have hb : (c.recruiter_user_id == caller.user_id) = false := by
        rw [beq_eq_false_iff_ne]
        exact hr
      rw [hb]
      exact ⟨rfl, rfl⟩
  · simp [List.count_cons]

/-- C7 witness: Bob marks conversation 42 as read with one unread message
from Alice pending; the counter resets and exactly one messages_read
event goes to Alices personal room. -/
theorem C7_mark_read_witness :
    ((mark_as_read wState4 wBob ⟨ConvIdPayload.valid 42⟩).2.count
      (OutEvent.messagesRead (userRoom 1) 42)) = 1 := by
  have h := C7_mark_read wState4 wBob ⟨ConvIdPayload.valid 42⟩ 42 wConv42
    (by decide) (by decide) (by decide)
  exact h.2.2.2.2.2

/-- C8 counterexample: mark_as_read by a connected participant on an
unknown conversation id is silently dropped: no event at all is emitted
to the caller (the claim requires an error event), though the state is
indeed unchanged. -/
theorem C8_counterexample :
    (mark_as_read wState2 wAlice ⟨ConvIdPayload.valid 99⟩).2 = [] ∧
    (mark_as_read wState2 wAlice ⟨ConvIdPayload.valid 99⟩).1 = wState2 := by
  decide

/-- C8 amended: every validation failure leaves the state unmodified and
emits nothing beyond at most one error event to the originating caller;
join_conversation and send_message emit exactly one error event in every
failure case (missing id, malformed id, empty trimmed body, unknown or
inactive conversation or non-participant), while mark_as_delivered and
mark_as_read emit an error only for a missing or malformed id and emit
nothing at all for an unknown conversation or non-participant. -/
theorem C8_validation_failures (st : ChatState) (s : Session) (cid : Nat) :
    (join_conversation st s ⟨ConvIdPayload.missing⟩ =
      (st, [OutEvent.errorTo s.sid "Conversation ID is required"])) ∧
    (join_conversation st s ⟨ConvIdPayload.malformed⟩ =
      (st, [OutEvent.errorTo s.sid "Invalid conversation ID format"])) ∧
    (findActiveConversation st cid s.user_id = none →
      join_conversation st s ⟨ConvIdPayload.valid cid⟩ =
        (st, [OutEvent.errorTo s.sid "Conversation not found or access denied"])) ∧
    (∀ (d : SendData) (tf nf ef : Bool), d.conversationId = ConvIdPayload.missing →
      send_message st s d tf nf ef =
        (st, [OutEvent.errorTo s.sid "Conversation ID is required"])) ∧
    (∀ (d : SendData) (tf nf ef : Bool), ¬ d.conversationId = ConvIdPayload.missing →
      d.message = none →
      send_message st s d tf nf ef =
        (st, [OutEvent.errorTo s.sid "Message cannot be empty"])) ∧
    (∀ (d : SendData) (tf nf ef : Bool) (raw : String),
      d.conversationId = ConvIdPayload.malformed → d.message = some raw →
      ¬ jsTrim raw = "" →
      send_message st s d tf nf ef =
        (st, [OutEvent.errorTo s.sid "Invalid conversation ID format"])) ∧
    (∀ (d : SendData) (tf nf ef : Bool) (raw : String),
      d.conversationId = ConvIdPayload.valid cid → d.message = some raw →
      jsTrim raw = "" →
      send_message st s d tf nf ef =
        (st, [OutEvent.errorTo s.sid "Message cannot be empty"])) ∧
    (∀ (d : SendData) (tf nf ef : Bool) (raw : String),
      d.conversationId = ConvIdPayload.valid cid → d.message = some raw →
      ¬ jsTrim raw = "" → findActiveConversation st cid s.user_id = none →
      send_message st s d tf nf ef =
        (st, [OutEvent.errorTo s.sid "Conversation not found or access denied"])) ∧
    (mark_as_delivered st s ⟨ConvIdPayload.missing⟩ =
      (st, [OutEvent.errorTo s.sid "Conversation ID is required"])) ∧
    (mark_as_delivered st s ⟨ConvIdPayload.malformed⟩ =
      (st, [OutEvent.errorTo s.sid "Invalid conversation ID format"])) ∧
    (findAnyConversation st cid s.user_id = none →
      mark_as_delivered st s ⟨ConvIdPayload.valid cid⟩ = (st, [])) ∧
    (mark_as_read st s ⟨ConvIdPayload.missing⟩ =
      (st, [OutEvent.errorTo s.sid "Conversation ID is required"])) ∧
    (mark_as_read st s ⟨ConvIdPayload.malformed⟩ =
      (st, [OutEvent.errorTo s.sid "Invalid conversation ID format"])) ∧
    (findAnyConversation st cid s.user_id = none →
      mark_as_read st s ⟨ConvIdPayload.valid cid⟩ = (st, [])) := by
  refine ⟨rfl, rfl, ?_, ?_, ?_, ?_, ?_, ?_, rfl, rfl, ?_, rfl, rfl, ?_⟩
  · intro h
    unfold join_conversation
    dsimp only
    rw [h]
  · intro d tf nf ef hd
    unfold send_message
    rw [hd]
    cases d.message <;> rfl
  · intro d tf nf ef hne hm
    cases hc : d.conversationId with
    | missing => exact absurd hc hne
    | malformed =>
        unfold send_message
        rw [hc, hm]
    | valid k =>
        unfold send_message
        rw [hc, hm]
  · intro d tf nf ef raw hc hm ht
    have hb : (jsTrim raw == "") = false := by
      rw [beq_eq_false_iff_ne]
      exact ht
    unfold send_message
    rw [hc, hm]
    dsimp only
    rw [hb]
    simp only [Bool.false_eq_true, if_false]
  · intro d tf nf ef raw hc hm ht
    have hb : (jsTrim raw == "") = true := beq_iff_eq.mpr ht
    unfold send_message
    rw [hc, hm]
    dsimp only
    rw [if_pos hb]
  · intro d tf nf ef raw hc hm ht hfind
    have hb : (jsTrim raw == "") = false := by
      rw [beq_eq_false_iff_ne]
      exact ht
    unfold send_message
    rw [hc, hm]
    dsimp only
    rw [hb]
    simp only [Bool.false_eq_true, if_false]
    rw [hfind]
  · intro h
    unfold mark_as_delivered
    dsimp only
    rw [h]
  · intro h
    unfold mark_as_read
    dsimp only
    rw [h]

/-- C8 amended witness: the silent not-found drop of mark_as_delivered
and the explicit error of a missing-id join, on the concrete state. -/
theorem C8_validation_failures_witness :
    mark_as_delivered wState2 wAlice ⟨ConvIdPayload.valid 99⟩ = (wState2, []) ∧
    join_conversation wState2 wAlice ⟨ConvIdPayload.missing⟩ =
      (wState2, [OutEvent.errorTo wAlice.sid "Conversation ID is required"]) := by
  obtain ⟨hj1, hj2, hj3, hs1, hs2, hs3, hs4, hs5, hd1, hd2, hd3, hr1, hr2, hr3⟩ :=
    C8_validation_failures wState2 wAlice 99
  exact ⟨hd3 (by decide), hj1⟩

end TFChat
